import Mathlib

/-
Verification development for the vfy-go backup verifier.

The program walks an original directory tree, derives for each visited
entry a corresponding backup path, and compares entries: directories are
recursed into, files are compared by size and by random content samples,
and counters (itemCount, diffCount, skippedCount, errorCount, ...) are
accumulated into a global summary from which a difference percentage is
reported.

The definitions below are a shallow embedding of the Go source in vfy.go:
  - paths are lists of (clean) components; filepath.Join is list append and
    filepath.Base keeps the last component (the empty list models ".",
    which filepath.Join cleans away);
  - file bytes are lists of naturals; machine integers are modelled as Nat
    (all counters and sizes in the program are non-negative and only ever
    incremented, so no overflow or sign issues arise at realistic sizes);
  - the cryptographically random offsets drawn by getRandomNumberWithMax
    are modelled as an explicit stream offs : Nat -> Nat consumed one value
    per sampling trial; rand.Int(rand.Reader, max) returns a uniform value
    in [0, max) when max > 0 and panics when max <= 0, which is modelled by
    the panic result below (rand.Reader read failures, which would hit
    log.Fatal, are not modelled: they are unrelated to the file inputs);
  - fallible filesystem probes are Option-valued functions bundled in a
    GoFs record; none models a non-nil Go error.
-/

namespace Vfy

/-- The number of bytes to compare during each random sample comparison
(var sampleSize = 32 in the source). -/
def sampleSize : Nat := 32

/-- Result of the sameFile comparison: a verdict together with the delta
added to the global errorCount, or a panic (the program dies, no verdict).
The panic case arises from rand.Int being handed a non-positive bound. -/
inductive SameFileResult where
  | ok (verdict : Bool) (errDelta : Nat)
  | panic
deriving DecidableEq, Repr

/-- Sequential read of n bytes from file f starting at position pos, as
performed by io.ReadAtLeast(f, buf, n) with a buffer of length n: it
succeeds returning exactly the n bytes when they are available before
end-of-file, and fails (io.EOF or io.ErrUnexpectedEOF, a non-nil error)
otherwise. The file position advances only on success, and on failure the
caller returns immediately, so the partial-advance case never matters. -/
def readAt (f : List Nat) (pos n : Nat) : Option (List Nat) :=
  if pos + n ≤ f.length then some ((f.drop pos).take n) else none

/-- The random sample loop of sameFile (for i := 0; i < sampleCount; i++).
Arguments: the two file contents, the offset stream, the trial index i,
the current sequential read position of both files, the errorCount delta
accumulated so far, and the remaining trial count (the fuel mirrors the
loop bound sampleCount - i).

Body, faithful to the source:
  - startAtByte := offs i, drawn by getRandomNumberWithMax(fileASize);
    rand.Int panics when the bound fileASize is zero (modelled as panic);
  - testBytesLength := min(fileASize, startAtByte + sampleSize)
      - startAtByte + 1, computed in float64 in the source, exact for the
      integer magnitudes involved; note the trailing + 1;
  - both files are read sequentially from the current position (the source
    never seeks to startAtByte; the drawn offset only enters the length);
    a read error on file A, else on file B, adds 1 to errorCount and
    returns false; on success io.ReadAtLeast returns exactly the requested
    count, so the subsequent two-sided short-read test in the source is
    unreachable;
  - equal samples break out of the loop, after which the source returns
    same (which is the constant true); unequal samples return false.
Every branch of the body leaves the loop, so no iteration beyond the
first ever runs. -/
def sampleLoop (fa fb : List Nat) (offs : Nat → Nat) (i pos err : Nat) :
    Nat → SameFileResult
  | 0 => .ok true err
  | _ + 1 =>
    if fa.length = 0 then .panic
    else
      let start := offs i
      let n := min fa.length (start + sampleSize) - start + 1
      match readAt fa pos n, readAt fb pos n with
      | none, _ => .ok false (err + 1)
      | some _, none => .ok false (err + 1)
      | some aSample, some bSample =>
        if aSample = bSample then .ok true err else .ok false err

/-- The sameFile comparison of the source, at the level of file contents:
the existence probe and the two os.Open calls succeed for existing
readable files (the claims about sameFile concern that case; the
error ladders for inaccessible files live in sameFileFs below), the sizes
are the content lengths, and unequal sizes add 1 to errorCount and return
false before any sampling. Equal sizes enter the random sample loop with
trial index 0, read position 0 and no accumulated error. -/
def sameFile (fa fb : List Nat) (offs : Nat → Nat) (sampleCount : Nat) :
    SameFileResult :=
  if fa.length = fb.length then sampleLoop fa fb offs 0 0 0 sampleCount
  else .ok false 1

/-- A filesystem path as its list of clean components. The empty list
models the cleaned relative path "." (which is what filepath.Base yields
on an empty string and what filepath.Join cleans away). -/
abbrev Path := List String

/-- filepath.Join on clean component lists is list append. -/
def pathJoin (p q : Path) : Path := p ++ q

/-- filepath.Base on a clean relative path keeps only the last component
(and yields ".", modelled as the empty list, on an empty path). -/
def pathBase : Path → Path
  | [] => []
  | [x] => [x]
  | _ :: xs => pathBase xs

/-- The backup path computed at the top of visit in the source:
backup := filepath.Join(backupDir, filepath.Base(relative)). -/
def backupPathOf (backupDir relative : Path) : Path :=
  pathJoin backupDir (pathBase relative)

/-- Modelled from the spec: the PathPair derivation the spec describes,
namely substituting the backup root for the original root while keeping
the entire relative sub-path. Stated only to be compared with the
computation backupPathOf found in the source. -/
def backupPathSpec (backupDir relative : Path) : Path :=
  pathJoin backupDir relative

/-- The result of isDirOrFile in the source: the string "directory", the
string "file", or the empty string for any other mode. -/
inductive StatKind where
  | directory
  | file
  | other
deriving DecidableEq, Repr

/-- What os.Stat reports about a path (after following symlinks): its
isDirOrFile classification and the device identifier read from
stat.Sys().(*syscall.Stat_t).Dev. -/
structure FileInfo where
  kind : StatKind
  dev : Nat
deriving DecidableEq, Repr

/-- One entry returned by ioutil.ReadDir: its Name() and its IsDir() bit
(ioutil.ReadDir stats without following symlinks). -/
structure DirEntry where
  name : String
  isDir : Bool
deriving DecidableEq, Repr

/-- The read-only filesystem probes the program performs. A none result
models a non-nil Go error. isSymLink already folds in the behavior of
the source helper: on an Lstat error it prints the error and returns
false, so it is total. evalSymlinks models filepath.EvalSymlinks, whose
string result is the zero value "" (modelled by the caller as the empty
path) when it fails. readFile bundles the probes sameFile performs on a
path (existence stat, size stat, os.Open, reads): some contents when the
path is a readable regular file, none otherwise. -/
structure GoFs where
  stat : Path → Option FileInfo
  isSymLink : Path → Bool
  evalSymlinks : Path → Option Path
  readDir : Path → Option (List DirEntry)
  readFile : Path → Option (List Nat)

/-- The global resultSummary counters of the source. -/
structure resultSummary where
  diffCount : Nat
  itemCount : Nat
  skippedCount : Nat
  errorCount : Nat
  symLinkError : Nat
  symMisMatch : Nat
deriving DecidableEq, Repr

/-- The kinds of per-item lines the walk prints, one tag per fmt.Print
family call in visit (verbose-only DEBUG lines and the prints inside
countItems are omitted: the modelled configuration has verbose unset, and
countItems reports its read failures through its error delta). -/
inductive LogTag where
  | statFail
  | dirMissing
  | readDirFail
  | symmisReadErr
  | symmisMismatch
  | symlinkSkip
  | devStatFail
  | differsSkip
  | fileDiff
deriving DecidableEq, Repr

/-- The observable state the walk mutates: the counters plus the ordered
log of printed per-item lines. -/
structure VisitState where
  s : resultSummary
  log : List LogTag
deriving DecidableEq, Repr

/-- The all-zero state at the start of a run. -/
def initState : VisitState := ⟨⟨0, 0, 0, 0, 0, 0⟩, []⟩

def addDiff (st : VisitState) (n : Nat) : VisitState :=
  { st with s := { st.s with diffCount := st.s.diffCount + n } }

def addItem (st : VisitState) (n : Nat) : VisitState :=
  { st with s := { st.s with itemCount := st.s.itemCount + n } }

def addSkip (st : VisitState) (n : Nat) : VisitState :=
  { st with s := { st.s with skippedCount := st.s.skippedCount + n } }

def addErr (st : VisitState) (n : Nat) : VisitState :=
  { st with s := { st.s with errorCount := st.s.errorCount + n } }

def logTag (st : VisitState) (t : LogTag) : VisitState :=
  { st with log := st.log ++ [t] }

/-- Body of the list walk inside countItems: count 1 per entry and, for
entries whose IsDir bit is set, add the recursive count of the child
directory. count1 is the recursive countItems call one fuel level down;
the pair is (count, errorCount delta). -/
def countItemsAux (count1 : Path → Nat × Nat) (dir : Path) :
    List DirEntry → Nat × Nat
  | [] => (0, 0)
  | it :: rest =>
    let r := if it.isDir then count1 (pathJoin dir [it.name]) else (0, 0)
    let s := countItemsAux count1 dir rest
    (1 + r.1 + s.1, r.2 + s.2)

/-- countItems from the source: ReadDir the directory; on a read error
print a message, add 1 to the global errorCount and continue with an
empty listing (hence count 0); otherwise count entries, recursing into
the ones whose IsDir bit is set. The source recursion is bounded by the
directory tree depth; the embedding makes that explicit with fuel, and
every theorem below is evaluated with fuel exceeding the relevant depth
(exhausted fuel returns (0, 0), a case the theorems never reach). -/
def countItems (fs : GoFs) : Nat → Path → Nat × Nat
  | 0, _ => (0, 0)
  | fuel + 1, dir =>
    match fs.readDir dir with
    | none => (0, 1)
    | some items => countItemsAux (countItems fs fuel) dir items

/-- The sameFile call as issued from visit, which passes paths: the
existence/size/open error ladder of the source adds 1 to errorCount and
returns false as soon as a path is not a readable regular file (each rung
of the ladder returns (false, errorCount+1); an unreadable path is the
readFile = none case), and with both files readable the comparison is the
content-level sameFile above. -/
def sameFileFs (fs : GoFs) (offs : Nat → Nat) (sampleCount : Nat)
    (pa pb : Path) : SameFileResult :=
  match fs.readFile pa, fs.readFile pb with
  | some a, some b => sameFile a b offs sampleCount
  | _, _ => .ok false 1

/-- The symlink check at the top of the per-entry loop of visit. Only
when both sides are symlinks does anything happen: the outer if has no
else branch, so a pair with exactly one symlink side falls straight
through. With both sides symlinks, an EvalSymlinks failure on either
side prints a SYMMIS read error line and leaves the zero-value target ""
(the empty path) in place of the failed resolution; unequal resolved
targets print a SYMMIS mismatch line, add 1 to diffCount, add the
countItems subtree weight when the IsDir bit of the entry is set, and
make visit return (Sum.inl: the loop and the enclosing visit stop,
abandoning the remaining entries); otherwise the loop body continues
with the state (Sum.inr). -/
def symlinkStep (fs : GoFs) (cf : Nat) (origPath backupPath : Path)
    (entryIsDir : Bool) (st : VisitState) : VisitState ⊕ VisitState :=
  if fs.isSymLink origPath ∨ fs.isSymLink backupPath then
    if fs.isSymLink origPath ∧ fs.isSymLink backupPath then
      let r1 := fs.evalSymlinks origPath
      let r2 := fs.evalSymlinks backupPath
      let st := if r1.isNone ∨ r2.isNone then logTag st .symmisReadErr
        else st
      if r1.getD [] ≠ r2.getD [] then
        let st := addDiff (logTag st .symmisMismatch) 1
        let st := if entryIsDir then
            let r := countItems fs cf origPath
            addErr (addDiff (addItem st r.1) r.1) r.2
          else st
        Sum.inl st
      else Sum.inr st
    else Sum.inr st
  else Sum.inr st

/-- The per-entry loop of visit (for _, item := range files). Arguments
mirror the enclosing visit frame: cf is the fuel handed to countItems,
recur is the recursive visit call for child relative paths, f1kind is the
isDirOrFile classification of folder1Stat (the stat of the enclosing
original directory, which is what the source tests at the dir/file
dispatch), and the list is the remaining entries. A some result is the
state when visit returns; none propagates a program abort. Per entry,
faithful to the source:
  - itemCount += 1;
  - origPath / backupPath are the entry joined onto each side;
  - the symlink check (symlinkStep above) either makes visit return or
    lets the body continue;
  - dir/file dispatch on f1kind (the stat of the parent, not the entry):
    in the directory branch, follow unset prints a SYMLINK skip line,
    adds 1 to skippedCount and returns from visit; a device stat failure
    on either the parent or the entry prints the error, adds 1 to
    skippedCount and returns from visit; differing devices with
    oneFilesystem set print a DIFFERS line, add 1 to skippedCount and
    return from visit; otherwise visit recurses into the entry and the
    loop continues; in the (never reached, since f1kind is directory
    whenever the loop is entered) file branch, a false sameFile verdict
    on the pair of parent paths adds 1 to diffCount and prints a FILE
    line, and the loop continues. -/
def visitLoop (fs : GoFs) (follow oneFS : Bool) (offs : Nat → Nat)
    (sc : Nat) (cf : Nat) (recur : Path → VisitState → Option VisitState)
    (relative original backup : Path) (f1kind : StatKind) :
    List DirEntry → VisitState → Option VisitState
  | [], st => some st
  | item :: rest, st =>
    let st := addItem st 1
    let origPath := pathJoin original [item.name]
    let backupPath := pathJoin backup [item.name]
    match symlinkStep fs cf origPath backupPath item.isDir st with
    | Sum.inl st => some st
    | Sum.inr st =>
      if f1kind = .directory then
        if !follow then some (logTag (addSkip st 1) .symlinkSkip)
        else
          match fs.stat original, fs.stat origPath with
          | none, _ => some (logTag (addSkip st 1) .devStatFail)
          | some _, none => some (logTag (addSkip st 1) .devStatFail)
          | some outerDev, some innerDev =>
            if outerDev.dev ≠ innerDev.dev ∧ oneFS then
              some (logTag (addSkip st 1) .differsSkip)
            else
              match recur (pathJoin relative [item.name]) st with
              | none => none
              | some st2 =>
                visitLoop fs follow oneFS offs sc cf recur relative
                  original backup f1kind rest st2
      else
        match sameFileFs fs offs sc original backup with
        | .panic => none
        | .ok v e =>
          let st := addErr st e
          let st := if v then st else logTag (addDiff st 1) .fileDiff
          visitLoop fs follow oneFS offs sc cf recur relative original
            backup f1kind rest st

/-- The body of visit, one recursion level: itemCount += 1; compute the
pair of absolute paths (note the backup side goes through backupPathOf,
that is filepath.Base); a stat failure on either side adds 1 to both
diffCount and errorCount, prints, and returns; if the two sides are not
both directories, print a DIR line, add 1 to diffCount and add the
countItems subtree weight of the original side to itemCount and
diffCount, then return; otherwise ReadDir the original side (a failure
adds 1 to errorCount, prints and returns) and run the per-entry loop. -/
def visitBody (fs : GoFs) (follow oneFS : Bool) (offs : Nat → Nat)
    (sc : Nat) (origDir backupDir : Path) (cf : Nat)
    (recur : Path → VisitState → Option VisitState)
    (relative : Path) (st : VisitState) : Option VisitState :=
  let st := addItem st 1
  let original := pathJoin origDir relative
  let backup := backupPathOf backupDir relative
  match fs.stat original, fs.stat backup with
  | none, _ => some (logTag (addErr (addDiff st 1) 1) .statFail)
  | some _, none => some (logTag (addErr (addDiff st 1) 1) .statFail)
  | some f1, some f2 =>
    if ¬(f1.kind = .directory ∧ f2.kind = .directory) then
      let st := logTag (addDiff st 1) .dirMissing
      let r := countItems fs cf original
      some (addErr (addDiff (addItem st r.1) r.1) r.2)
    else
      match fs.readDir original with
      | none => some (logTag (addErr st 1) .readDirFail)
      | some files =>
        visitLoop fs follow oneFS offs sc cf recur relative original
          backup f1.kind files st

/-- The recursive visit walk of the source, with fuel making the
tree-depth-bounded recursion explicit (exhausted fuel returns the state
unchanged; every theorem below runs with fuel exceeding the depth of the
filesystem involved). Flags: follow is --follow, oneFS is
--one-filesystem; sc is the --samples count; verbose and machine are
modelled unset as they only gate prints outside the walk. -/
def visitGo (fs : GoFs) (follow oneFS : Bool) (offs : Nat → Nat)
    (sc : Nat) (origDir backupDir : Path) :
    Nat → Path → VisitState → Option VisitState
  | 0, _, st => some st
  | fuel + 1, relative, st =>
    visitBody fs follow oneFS offs sc origDir backupDir fuel
      (visitGo fs follow oneFS offs sc origDir backupDir fuel) relative st

/-- The difference percentage computed in printSummary:
float64(diffCount) / float64(itemCount) * 100. The float64 arithmetic is
modelled over the rationals (the claim concerns the formula, not float
rounding, and the counter magnitudes are far below 2 ^ 53); the division
by zero that float64 resolves to a NaN or infinite value, which is what
Sprintf then renders, is modelled as none. -/
def diffPctGo (diffCount itemCount : Nat) : Option ℚ :=
  if itemCount = 0 then none
  else some ((diffCount : ℚ) / (itemCount : ℚ) * 100)

/-- A filesystem with no symlinks at all: original root o holds one plain
subdirectory d that holds one regular file y, and the backup root b
mirrors it exactly. -/
def fsPlainSubdir : GoFs where
  stat := fun p =>
    if p = ["o"] then some ⟨.directory, 0⟩
    else if p = ["b"] then some ⟨.directory, 0⟩
    else if p = ["o", "d"] then some ⟨.directory, 0⟩
    else if p = ["b", "d"] then some ⟨.directory, 0⟩
    else if p = ["o", "d", "y"] then some ⟨.file, 0⟩
    else if p = ["b", "d", "y"] then some ⟨.file, 0⟩
    else none
  isSymLink := fun _ => false
  evalSymlinks := fun _ => none
  readDir := fun p =>
    if p = ["o"] then some [⟨"d", true⟩]
    else if p = ["o", "d"] then some [⟨"y", false⟩]
    else if p = ["b"] then some [⟨"d", true⟩]
    else if p = ["b", "d"] then some [⟨"y", false⟩]
    else none
  readFile := fun p =>
    if p = ["o", "d", "y"] then some [7]
    else if p = ["b", "d", "y"] then some [7]
    else none

/-- A filesystem where the entry s under the original root is a symlink
to the regular file t, while the backup side s is a plain regular file:
exactly one side of the compared pair is a symlink. -/
def fsOneSideSymlink : GoFs where
  stat := fun p =>
    if p = ["o"] then some ⟨.directory, 0⟩
    else if p = ["b"] then some ⟨.directory, 0⟩
    else if p = ["o", "s"] then some ⟨.file, 0⟩
    else if p = ["b", "s"] then some ⟨.file, 0⟩
    else none
  isSymLink := fun p => p = ["o", "s"]
  evalSymlinks := fun p => if p = ["o", "s"] then some ["o", "t"] else none
  readDir := fun p =>
    if p = ["o"] then some [⟨"s", false⟩]
    else if p = ["b"] then some [⟨"s", false⟩]
    else none
  readFile := fun p =>
    if p = ["b", "s"] then some [7] else none

/-- A filesystem where the original root holds two plain subdirectories,
bad then good: stat fails on bad (an unreadable entry), while good and
its mirror are fully intact. -/
def fsBadEntry : GoFs where
  stat := fun p =>
    if p = ["o"] then some ⟨.directory, 0⟩
    else if p = ["b"] then some ⟨.directory, 0⟩
    else if p = ["o", "good"] then some ⟨.directory, 0⟩
    else if p = ["b", "good"] then some ⟨.directory, 0⟩
    else none
  isSymLink := fun _ => false
  evalSymlinks := fun _ => none
  readDir := fun p =>
    if p = ["o"] then some [⟨"bad", true⟩, ⟨"good", true⟩]
    else if p = ["o", "good"] then some []
    else none
  readFile := fun _ => none

/-- A filesystem family for the boundary guard: the original root o (on
device d1) holds the subdirectory m on device d2; m holds the empty
subdirectory w (also on d2). The backup side mirrors every path the walk
consults, including the alias b, w that the filepath.Base computation in
visit produces for the relative path m, w. -/
def fsTwoDevices (d1 d2 : Nat) : GoFs where
  stat := fun p =>
    if p = ["o"] then some ⟨.directory, d1⟩
    else if p = ["b"] then some ⟨.directory, d1⟩
    else if p = ["o", "m"] then some ⟨.directory, d2⟩
    else if p = ["b", "m"] then some ⟨.directory, d2⟩
    else if p = ["o", "m", "w"] then some ⟨.directory, d2⟩
    else if p = ["b", "w"] then some ⟨.directory, d2⟩
    else none
  isSymLink := fun _ => false
  evalSymlinks := fun _ => none
  readDir := fun p =>
    if p = ["o"] then some [⟨"m", true⟩]
    else if p = ["o", "m"] then some [⟨"w", true⟩]
    else if p = ["o", "m", "w"] then some []
    else none
  readFile := fun _ => none

/-- The filesystem on which every probe fails. -/
def fsNothing : GoFs where
  stat := fun _ => none
  isSymLink := fun _ => false
  evalSymlinks := fun _ => none
  readDir := fun _ => none
  readFile := fun _ => none

/-- The all-zero offset stream (any stream works for runs that never
sample). -/
def zeroOffs : Nat → Nat := fun _ => 0

@[simp] theorem addDiff_item (st : VisitState) (n : Nat) :
    (addDiff st n).s.itemCount = st.s.itemCount := rfl

@[simp] theorem addItem_item (st : VisitState) (n : Nat) :
    (addItem st n).s.itemCount = st.s.itemCount + n := rfl

@[simp] theorem addSkip_item (st : VisitState) (n : Nat) :
    (addSkip st n).s.itemCount = st.s.itemCount := rfl

@[simp] theorem addErr_item (st : VisitState) (n : Nat) :
    (addErr st n).s.itemCount = st.s.itemCount := rfl

@[simp] theorem logTag_item (st : VisitState) (t : LogTag) :
    (logTag st t).s.itemCount = st.s.itemCount := rfl

/-- The itemCount of the state carried out of the symlink check, whether
the loop continues or visit returns, is at least the itemCount carried
in: the check only ever adds to the counters. -/
theorem symlinkStep_item_mono (fs : GoFs) (cf : Nat)
    (origPath backupPath : Path) (entryIsDir : Bool) (st : VisitState) :
    st.s.itemCount ≤
      ((symlinkStep fs cf origPath backupPath entryIsDir st).elim id
        id).s.itemCount := by
  simp only [symlinkStep]
  repeat' split
  all_goals simp

/-- The per-entry loop never decreases itemCount, whenever the recursive
visit call it is handed never does. -/
theorem visitLoop_item_mono (fs : GoFs) (follow oneFS : Bool)
    (offs : Nat → Nat) (sc cf : Nat)
    (recur : Path → VisitState → Option VisitState)
    (relative original backup : Path) (f1kind : StatKind)
    (hrec : ∀ p s r, recur p s = some r → s.s.itemCount ≤ r.s.itemCount) :
    ∀ (l : List DirEntry) (st res : VisitState),
      visitLoop fs follow oneFS offs sc cf recur relative original backup
        f1kind l st = some res →
      st.s.itemCount ≤ res.s.itemCount := by
  intro l
  induction l with
  | nil =>
    intro st res h
    simp only [visitLoop, Option.some.injEq] at h
    subst h
    exact Nat.le_refl _
  | cons item rest ih =>
    intro st res h
    simp only [visitLoop] at h
    have hm := symlinkStep_item_mono fs cf (pathJoin original [item.name])
      (pathJoin backup [item.name]) item.isDir (addItem st 1)
    split at h
    · rename_i t heq
      rw [heq] at hm
      simp only [Sum.elim_inl, id_eq, addItem_item] at hm
      simp only [Option.some.injEq] at h
      subst h
      omega
    · rename_i t heq
      rw [heq] at hm
      simp only [Sum.elim_inr, id_eq, addItem_item] at hm
      split at h
      · split at h
        · simp only [Option.some.injEq] at h
          subst h
          simp only [logTag_item, addSkip_item]
          omega
        · split at h
          · simp only [Option.some.injEq] at h
            subst h
            simp only [logTag_item, addSkip_item]
            omega
          · simp only [Option.some.injEq] at h
            subst h
            simp only [logTag_item, addSkip_item]
            omega
          · split at h
            · simp only [Option.some.injEq] at h
              subst h
              simp only [logTag_item, addSkip_item]
              omega
            · split at h
              · simp at h
              · rename_i st2 heq2
                have h2 := hrec _ _ _ heq2
                have h3 := ih _ _ h
                omega
      · split at h
        · simp at h
        · rename_i v e heq2
          have h3 := ih _ _ h
          rcases v with _ | _ <;>
            simp only [Bool.false_eq_true, if_true, if_false, logTag_item,
              addDiff_item, addErr_item, ite_true, ite_false] at h3 <;>
            omega

/-- One visit body never decreases itemCount, and in fact adds at least
one for the visited pair itself, whenever the recursive call it is
handed never decreases itemCount. -/
theorem visitBody_item_mono (fs : GoFs) (follow oneFS : Bool)
    (offs : Nat → Nat) (sc : Nat) (origDir backupDir : Path) (cf : Nat)
    (recur : Path → VisitState → Option VisitState)
    (hrec : ∀ p s r, recur p s = some r → s.s.itemCount ≤ r.s.itemCount)
    (relative : Path) (st res : VisitState)
    (h : visitBody fs follow oneFS offs sc origDir backupDir cf recur
      relative st = some res) :
    st.s.itemCount + 1 ≤ res.s.itemCount := by
  simp only [visitBody] at h
  split at h
  · simp only [Option.some.injEq] at h
    subst h
    simp only [logTag_item, addErr_item, addDiff_item, addItem_item]
    omega
  · simp only [Option.some.injEq] at h
    subst h
    simp only [logTag_item, addErr_item, addDiff_item, addItem_item]
    omega
  · split at h
    · simp only [Option.some.injEq] at h
      subst h
      simp only [logTag_item, addErr_item, addDiff_item, addItem_item]
      omega
    · split at h
      · simp only [Option.some.injEq] at h
        subst h
        simp only [logTag_item, addErr_item, addItem_item]
        omega
      · have h3 := visitLoop_item_mono fs follow oneFS offs sc cf recur
          relative (pathJoin origDir relative)
          (backupPathOf backupDir relative) _ hrec _ _ _ h
        simp only [addItem_item] at h3
        omega

/-- The whole walk never decreases itemCount. -/
theorem visitGo_item_mono (fs : GoFs) (follow oneFS : Bool)
    (offs : Nat → Nat) (sc : Nat) (origDir backupDir : Path) :
    ∀ (fuel : Nat) (rel : Path) (st res : VisitState),
      visitGo fs follow oneFS offs sc origDir backupDir fuel rel st =
        some res →
      st.s.itemCount ≤ res.s.itemCount := by
  intro fuel
  induction fuel with
  | zero =>
    intro rel st res h
    simp only [visitGo, Option.some.injEq] at h
    subst h
    exact Nat.le_refl _
  | succ f ih =>
    intro rel st res h
    simp only [visitGo] at h
    have h2 := visitBody_item_mono fs follow oneFS offs sc origDir
      backupDir f _ (fun p s r hh => ih p s r hh) rel st res h
    omega

/-- A pair of 64-byte files that differ exactly in their first byte, and
an offset stream drawing 0 for the first trial and 32 afterwards: the
first sampled range differs while the range at offset 32 matches. -/
def fileA64 : List Nat := 1 :: List.replicate 63 0

def fileB64 : List Nat := 0 :: List.replicate 63 0

def offsFirstThen32 : Nat → Nat := fun i => if i = 0 then 0 else 32

/-- C1: the backup path visit compares an original entry against is
Join(backupDir, Base(relative)), which keeps only the last component of
the relative path: at the nested relative path a/b it produces
backupRoot/b, not the backupRoot/a/b the claim describes (the two
derivations agree only at nesting depth at most one, as the third
conjunct shows for the relative path a). -/
theorem c1_backup_path_drops_components :
    backupPathOf ["bak"] ["a", "b"] = ["bak", "b"] ∧
    backupPathOf ["bak"] ["a", "b"] ≠ backupPathSpec ["bak"] ["a", "b"] ∧
    backupPathOf ["bak"] ["a"] = backupPathSpec ["bak"] ["a"] := by
  decide

/-- C2 counterexample: equal-size files whose first sampled range
differs while the range sampled by the second trial matches (third
conjunct), with sampleCount 2: the comparison returns false, not the
equal verdict the claim requires, because a first-trial mismatch returns
immediately and the second trial never runs. -/
theorem c2_counterexample_first_mismatch_is_final :
    sameFile fileA64 fileB64 offsFirstThen32 2 = .ok false 0 ∧
    (fileA64.drop 32).take 32 = (fileB64.drop 32).take 32 ∧
    fileA64.length = fileB64.length := by
  decide

/-- C2 (amended): for sampleCount at least 1, the verdict is decided
entirely by the first trial: every branch of the loop body leaves the
loop (a match breaks and returns true, a mismatch or read error returns
false), so the result with sampleCount k + 1 is the result with
sampleCount 1, and a run whose first sampled bytes differ yields a
not-equal verdict regardless of any later trial that would match. -/
theorem c2_only_first_trial_decides (fa fb : List Nat) (offs : Nat → Nat)
    (k : Nat) : sameFile fa fb offs (k + 1) = sameFile fa fb offs 1 := rfl

/-- C3: the sampling window is off by one and ignores the drawn offset
when reading. At size 1 with drawn offset 0 the source requests
min(size, start + sampleSize) - start + 1 = 2 bytes (first conjunct),
one more than the min(sampleWidth, size - start) = 1 byte the claim
specifies (second conjunct); the 2-byte read overruns end-of-file, so
two identical 1-byte files compare as not-equal with an error counted
(third conjunct). Reads also proceed from the sequential file position
rather than seeking to the drawn offset. -/
theorem c3_sample_window_overruns :
    min 1 (0 + sampleSize) - 0 + 1 = 2 ∧
    min sampleSize (1 - 0) = 1 ∧
    sameFile [5] [5] zeroOffs 1 = .ok false 1 := by
  decide

/-- C4: with followSymlinks unset, a plain (non-symlink) subdirectory is
not enumerated or recursed into. On a symlink-free tree (first conjunct)
whose original root holds one plain subdirectory d containing file y,
the walk records one Skipped (printing a SYMLINK line) for d and
returns: the final state counts only the root and d (itemCount 2, so y
was never visited), because the dispatch tests the stat of the parent
directory instead of the entry and never consults the entry itself. -/
theorem c4_plain_subdir_skipped_without_follow :
    (∀ p, fsPlainSubdir.isSymLink p = false) ∧
    visitGo fsPlainSubdir false false zeroOffs 0 ["o"] ["b"] 5 []
        initState =
      some ⟨⟨0, 2, 1, 0, 0, 0⟩, [.symlinkSkip]⟩ :=
  ⟨fun _ => rfl, by decide⟩

/-- C5: when exactly one side of a pair is a symlink (first two
conjuncts: the original entry s is a symlink, the backup one is not),
the comparator emits nothing for the mismatch: the symlink block has no
else branch, so control falls through to the directory/file dispatch,
and the run ends with no SYMMIS line in the log, diffCount 0 and
symMisMatch 0 (the only outcome is the unrelated SYMLINK skip of the
fall-through dispatch). -/
theorem c5_one_sided_symlink_falls_through :
    fsOneSideSymlink.isSymLink ["o", "s"] = true ∧
    fsOneSideSymlink.isSymLink ["b", "s"] = false ∧
    visitGo fsOneSideSymlink false false zeroOffs 0 ["o"] ["b"] 5 []
        initState =
      some ⟨⟨0, 2, 1, 0, 0, 0⟩, [.symlinkSkip]⟩ := by
  decide

/-- C6: with sampleCount 0 the comparison of two equal-length readable
files returns true with no error counted, whatever the contents: the
sampling loop runs zero times and the function returns same = true. -/
theorem c6_zero_samples_accepts_equal_sizes (fa fb : List Nat)
    (offs : Nat → Nat) (h : fa.length = fb.length) :
    sameFile fa fb offs 0 = .ok true 0 := by
  simp [sameFile, h, sampleLoop]

/-- Witness for C6 at two equal-length files with different contents. -/
theorem c6_zero_samples_witness :
    ([1, 2] : List Nat).length = ([3, 4] : List Nat).length ∧
    sameFile [1, 2] [3, 4] zeroOffs 0 = .ok true 0 :=
  ⟨rfl, c6_zero_samples_accepts_equal_sizes [1, 2] [3, 4] zeroOffs rfl⟩

/-- C7 counterexample: at itemCount 0 the summary division produces the
NaN / infinite float value (modelled none), not the 0 the claim
states. -/
theorem c7_counterexample_zero_items_is_nan :
    diffPctGo 0 0 = none ∧ diffPctGo 0 0 ≠ some 0 := by
  constructor <;> simp [diffPctGo]

/-- C7 (amended): the reported percentage equals
diffCount / itemCount * 100 whenever itemCount is non-zero, with no
division fault; when itemCount is 0 the code divides anyway and the
float value is NaN or infinite rather than 0, but that case cannot arise
at the end of a run: any completed walk (any fuel, starting state and
filesystem) increments itemCount at least once for the root pair. -/
theorem c7_percentage_formula_and_positive_items :
    (∀ d i : Nat, i ≠ 0 →
      diffPctGo d i = some ((d : ℚ) / (i : ℚ) * 100)) ∧
    (∀ (fs : GoFs) (follow oneFS : Bool) (offs : Nat → Nat) (sc : Nat)
      (od bd : Path) (fuel : Nat) (rel : Path) (st res : VisitState),
      visitGo fs follow oneFS offs sc od bd (fuel + 1) rel st = some res →
      st.s.itemCount + 1 ≤ res.s.itemCount) := by
  constructor
  · intro d i hi
    simp [diffPctGo, hi]
  · intro fs follow oneFS offs sc od bd fuel rel st res h
    simp only [visitGo] at h
    exact visitBody_item_mono fs follow oneFS offs sc od bd fuel _
      (fun p s r hh =>
        visitGo_item_mono fs follow oneFS offs sc od bd fuel p s r hh)
      rel st res h

/-- Witness for C7: the formula at diffCount 1, itemCount 2, and the
itemCount lower bound on a concrete completed run. -/
theorem c7_amended_witness :
    diffPctGo 1 2 = some ((1 : ℚ) / (2 : ℚ) * 100) ∧
    initState.s.itemCount + 1 ≤
      (⟨⟨1, 1, 0, 1, 0, 0⟩, [.statFail]⟩ : VisitState).s.itemCount :=
  ⟨c7_percentage_formula_and_positive_items.1 1 2 (by decide),
   c7_percentage_formula_and_positive_items.2 fsNothing false false
     zeroOffs 0 ["o"] ["b"] 0 [] initState _ (by decide)⟩

/-- C8 counterexample: with followSymlinks set, the original root holds
the entries bad then good, and stat fails on bad. The completed run
shows the failure is not recovered as the claim states: skippedCount
(not errorCount) is incremented, the item is not treated as Different,
and visit returns, so the sibling good is never examined (itemCount
stays at 2: the root and bad). -/
theorem c8_counterexample_stat_error_not_recovered :
    visitGo fsBadEntry true false zeroOffs 0 ["o"] ["b"] 5 []
        initState =
      some ⟨⟨0, 2, 1, 0, 0, 0⟩, [.devStatFail]⟩ := by
  decide

/-- C8 (amended): stat failures on the two paths of a visited pair are
recovered as the claim states (diffCount and errorCount both increment
and the parent loop continues), but a stat error on an individual entry
during the per-entry device check is not: whatever the parent stat
returns, it adds 1 to skippedCount, leaves errorCount and diffCount
untouched, does not treat the entry as Different, and makes visit
return, abandoning the remaining sibling entries (the rest of the list
does not occur in the result). -/
theorem c8_entry_stat_error_skips_and_aborts
    (fs : GoFs) (oneFS : Bool) (offs : Nat → Nat) (sc cf : Nat)
    (recur : Path → VisitState → Option VisitState)
    (relative original backup : Path) (item : DirEntry)
    (rest : List DirEntry) (st : VisitState)
    (h1 : fs.isSymLink (pathJoin original [item.name]) = false)
    (h2 : fs.isSymLink (pathJoin backup [item.name]) = false)
    (h3 : fs.stat (pathJoin original [item.name]) = none) :
    visitLoop fs true oneFS offs sc cf recur relative original backup
      .directory (item :: rest) st =
      some (logTag (addSkip (addItem st 1) 1) .devStatFail) := by
  simp only [visitLoop, symlinkStep, h1, h2, Bool.false_eq_true, or_self,
    if_false, ite_false]
  cases hs : fs.stat original <;> simp [hs, h3]

/-- Witness for C8 at the bad entry of fsBadEntry. -/
theorem c8_amended_witness :
    fsBadEntry.isSymLink (pathJoin ["o"] ["bad"]) = false ∧
    fsBadEntry.stat (pathJoin ["o"] ["bad"]) = none ∧
    visitLoop fsBadEntry true false zeroOffs 0 4
        (visitGo fsBadEntry true false zeroOffs 0 ["o"] ["b"] 4) [] ["o"]
        ["b"] .directory [⟨"bad", true⟩, ⟨"good", true⟩]
        (addItem initState 1) =
      some (logTag (addSkip (addItem (addItem initState 1) 1) 1)
        .devStatFail) :=
  ⟨by decide, by decide,
   c8_entry_stat_error_skips_and_aborts fsBadEntry false zeroOffs 0 4
     (visitGo fsBadEntry true false zeroOffs 0 ["o"] ["b"] 4) [] ["o"]
     ["b"] ⟨"bad", true⟩ [⟨"good", true⟩] (addItem initState 1)
     (by decide) (by decide) (by decide)⟩

/-- C9 counterexample: with followSymlinks unset, a plain subdirectory m
on the same device as its parent (devices both 0) and oneFilesystem
unset is still not descended into: the claim says the comparator
descends unless oneFilesystem is set and the devices differ, but the run
stops at itemCount 2 with one Skipped, never reaching the empty subtree
below m. -/
theorem c9_counterexample_same_device_not_descended :
    visitGo (fsTwoDevices 0 0) false false zeroOffs 0 ["o"] ["b"] 5 []
        initState =
      some ⟨⟨0, 2, 1, 0, 0, 0⟩, [.symlinkSkip]⟩ := by
  decide

/-- C9 (amended): when followSymlinks is set and the device stats
succeed, the comparator descends into a child directory unless
oneFilesystem is set and the parent and child device identifiers
differ; in the declined case the subtree yields exactly one Skipped
outcome (skippedCount 1, one DIFFERS line) and nothing below the child
is added to itemCount or diffCount (itemCount stays at 2), while in the
descended case the whole subtree below m is walked (itemCount 5,
nothing skipped). -/
theorem c9_descend_guard (d1 d2 : Nat) (oneFS : Bool) :
    visitGo (fsTwoDevices d1 d2) true oneFS zeroOffs 0 ["o"] ["b"] 5 []
        initState =
      if d1 ≠ d2 ∧ oneFS then some ⟨⟨0, 2, 1, 0, 0, 0⟩, [.differsSkip]⟩
      else some ⟨⟨0, 5, 0, 0, 0, 0⟩, []⟩ := by
  by_cases h1 : d1 = d2
  · subst h1
    simp [visitGo, visitBody, visitLoop, symlinkStep, fsTwoDevices,
      pathJoin, pathBase, backupPathOf, countItems, countItemsAux,
      addItem, addDiff, addSkip, addErr, logTag, initState, zeroOffs]
  · rcases Bool.dichotomy oneFS with h2 | h2 <;> subst h2 <;>
      simp [visitGo, visitBody, visitLoop, symlinkStep, fsTwoDevices,
        pathJoin, pathBase, backupPathOf, countItems, countItemsAux,
        addItem, addDiff, addSkip, addErr, logTag, initState, zeroOffs,
        h1]

/-- C10: comparing two existing zero-byte files with any sampleCount of
at least 1 yields no verdict: the first trial hands the zero size to
getRandomNumberWithMax, and rand.Int panics on a non-positive bound, so
the program dies instead of returning true or false. -/
theorem c10_zero_size_sampling_panics (offs : Nat → Nat) (n : Nat) :
    sameFile [] [] offs (n + 1) = .panic := rfl

end Vfy
